import Mathlib

/-!
Verification of the video-scene SaaS repository (src/app.py and src/crew.py).

The embedding models Python strings through explicit `List Char` primitives
that mirror the CPython semantics of `str.strip`, `str.lower`,
`str.startswith`, `str.split(sep)` and `str.split(sep, 1)` for the ASCII
inputs this program manipulates.  The external chat-completion call is the
only IO boundary; it is passed in as a parameter of type
`Except PyErr String` (either the response text or a raised exception), so
every theorem quantifies over all possible model responses and failures.
JSON values exchanged over HTTP are modelled by the inductive `J`.
-/

/-- Characters treated as whitespace by Python `str.strip()` (ASCII subset:
space, tab, newline, carriage return, vertical tab, form feed). -/
def pyIsSpace (c : Char) : Bool :=
  c = ' ' || c = '\t' || c = '\n' || c = '\r' || c = Char.ofNat 11 || c = Char.ofNat 12

/-- Strip whitespace from both ends of a character list (Python `str.strip()`). -/
def stripList (l : List Char) : List Char :=
  ((l.dropWhile pyIsSpace).reverse.dropWhile pyIsSpace).reverse

/-- Python `s.strip()`. -/
def pyStrip (s : String) : String :=
  String.mk (stripList s.data)

/-- ASCII lower-casing of one character (Python `str.lower` restricted to
the ASCII range the program's keywords use). -/
def lowerChar (c : Char) : Char :=
  if 65 ≤ c.toNat && c.toNat ≤ 90 then Char.ofNat (c.toNat + 32) else c

/-- Python `s.lower()`. -/
def pyLower (s : String) : String :=
  String.mk (s.data.map lowerChar)

/-- Does the list `s` start with the list `p`? (Python `str.startswith`.) -/
def startsWithList : List Char → List Char → Bool
  | _, [] => true
  | [], _ :: _ => false
  | c :: cs, p :: ps => c = p && startsWithList cs ps

/-- Python `s.startswith(p)`. -/
def pyStartsWith (s p : String) : Bool :=
  startsWithList s.data p.data

/-- Split a character list at every occurrence of `sep`
(Python `str.split(sep)`; `"".split(sep) = [""]`). -/
def splitOnChar (sep : Char) : List Char → List (List Char)
  | [] => [[]]
  | c :: cs =>
    match splitOnChar sep cs with
    | [] => [[]]
    | g :: gs => if c = sep then [] :: g :: gs else (c :: g) :: gs

/-- Python `s.split(sep)` on strings. -/
def pySplit (sep : Char) (s : String) : List String :=
  (splitOnChar sep s.data).map String.mk

/-- Split at the first occurrence of `sep` only
(Python `s.split(sep, 1)`); `none` when `sep` does not occur
(so `isSome` is Python's `sep in s`). -/
def splitOnceChar (sep : Char) : List Char → Option (List Char × List Char)
  | [] => none
  | c :: cs =>
    if c = sep then some ([], cs)
    else
      match splitOnceChar sep cs with
      | none => none
      | some kv => some (c :: kv.1, kv.2)

/-- Python truthiness of a string (`if line:`): nonempty. -/
def pyTruthy (s : String) : Bool :=
  !s.data.isEmpty

/-- A raised Python exception reaching the `try` block: either a
`ValueError` (which `crew.py` catches separately) or any other exception. -/
inductive PyErr where
  | valueError (msg : String)
  | otherError (msg : String)
deriving DecidableEq

/-- Python `str(e)` for a caught exception in our model: its message. -/
def pyMsg : PyErr → String
  | .valueError m => m
  | .otherError m => m

/-- A JSON value (enough of JSON for this program: null, strings, integers,
arrays, objects with insertion-ordered fields). -/
inductive J where
  | null
  | str (s : String)
  | num (n : Int)
  | arr (elems : List J)
  | obj (fields : List (String × J))

/-- Python truthiness of a JSON value (`if not data:`, `if not topic:`). -/
def J.truthy : J → Bool
  | .null => false
  | .str s => pyTruthy s
  | .num n => n != 0
  | .arr xs => !xs.isEmpty
  | .obj fs => !fs.isEmpty

/-- Python `dict.get(key)`: first binding of `key`, `none` when absent. -/
def getField : List (String × J) → String → Option J
  | [], _ => none
  | kv :: rest, key => if kv.1 = key then some kv.2 else getField rest key

/-- Field lookup on a JSON value (used to observe response shapes). -/
def J.lookup (key : String) : J → Option J
  | .obj fs => getField fs key
  | _ => none

/-- Whether a JSON value is an object carrying a "status" key (the shape
marker of `app.py` results, absent from all `crew.py` results). -/
def J.hasStatusKey (j : J) : Bool :=
  (J.lookup "status" j).isSome

/-- The key list of a JSON object (empty for non-objects). -/
def J.keysOf : J → List String
  | .obj fs => fs.map Prod.fst
  | _ => []

namespace App

/-- The mutable `current_scene` dict of `app.py` `generate_video_scenes`:
it is either `{}` (all fields `none`) or was created by the scene-header
branch as `{'number': line, 'description': '', 'elements': []}` and then
updated field-wise.  A `none` field models an absent dict key, whose read
raises `KeyError`. -/
structure SceneDict where
  number : Option String
  description : Option String
  elements : Option (List String)
deriving DecidableEq

/-- Python truthiness of the dict (`if current_scene:` / `elif current_scene:`):
it has at least one key. -/
def SceneDict.isTruthy (d : SceneDict) : Bool :=
  d.number.isSome || d.description.isSome || d.elements.isSome

/-- All three keys are present (the shape every header-created dict has). -/
def SceneDict.isFull (d : SceneDict) : Bool :=
  d.number.isSome && d.description.isSome && d.elements.isSome

/-- `{'number': line, 'description': '', 'elements': []}` — app.py line 90;
`line` is already stripped by the caller. -/
def initScene (line : String) : SceneDict :=
  ⟨some line, some "", some []⟩

/-- The `elif current_scene:` body of app.py lines 92-100, applied to one
already-stripped nonempty non-header `line`.  A read of the missing
`'description'` key is the `KeyError` the `Except` layer carries. -/
def handleContent (cur : SceneDict) (line : String) : Except String SceneDict :=
  match splitOnceChar ':' line.data with
  | some kv =>
    if pyStrip (pyLower (String.mk kv.1)) = "description" then
      .ok { cur with description := some (pyStrip (String.mk kv.2)) }
    else if pyStrip (pyLower (String.mk kv.1)) = "key elements" then
      .ok { cur with elements := some ((pySplit ',' (String.mk kv.2)).map pyStrip) }
    else .ok cur
  | none =>
    match cur.description with
    | none => .error "KeyError: description"
    | some d => if pyTruthy d then .ok cur else .ok { cur with description := some line }

/-- The `for line in scene_content.split('\n')` loop of app.py lines 84-103
together with the final flush of lines 102-103, as a recursion over the
remaining lines with the accumulated `scenes` list and `current_scene`. -/
def loop : List SceneDict → SceneDict → List String → Except String (List SceneDict)
  | scenes, cur, [] => .ok (if cur.isTruthy then scenes ++ [cur] else scenes)
  | scenes, cur, raw :: rest =>
    if pyTruthy (pyStrip raw) then
      if pyStartsWith (pyLower (pyStrip raw)) "scene" then
        loop (if cur.isTruthy then scenes ++ [cur] else scenes) (initScene (pyStrip raw)) rest
      else if cur.isTruthy then
        match handleContent cur (pyStrip raw) with
        | .ok cur' => loop scenes cur' rest
        | .error e => .error e
      else loop scenes cur rest
    else loop scenes cur rest

/-- The scene parser of app.py lines 81-103: split the text on newlines and
run the loop starting from `scenes = []`, `current_scene = {}`. -/
def parseScenes (content : String) : Except String (List SceneDict) :=
  loop [] ⟨none, none, none⟩ (pySplit '\n' content)

/-- Is a raw line a scene header: nonempty after stripping and its
lower-casing starts with "scene" (spec §4.2 wording, matching the code's
test on the stripped line). -/
def isHeader (raw : String) : Bool :=
  pyTruthy (pyStrip raw) && pyStartsWith (pyLower (pyStrip raw)) "scene"

/-- Reference body-line action, written from the spec's contract wording
(§4.2): key-value lines set `description` / comma-split `key elements`;
colon-free lines fill an empty description; other lines are ignored. -/
def bodyStep (cur : SceneDict) (raw : String) : SceneDict :=
  if pyTruthy (pyStrip raw) then
    match splitOnceChar ':' (pyStrip raw).data with
    | some kv =>
      if pyStrip (pyLower (String.mk kv.1)) = "description" then
        { cur with description := some (pyStrip (String.mk kv.2)) }
      else if pyStrip (pyLower (String.mk kv.1)) = "key elements" then
        { cur with elements := some ((pySplit ',' (String.mk kv.2)).map pyStrip) }
      else cur
    | none =>
      if pyTruthy (cur.description.getD "") then cur
      else { cur with description := some (pyStrip raw) }
  else cur

/-- Reference parser, in-progress part: one record is open (started by the
most recent header); every following line updates it until the next header
opens a fresh record; the final record is flushed at end of input
(spec §4.2 wording). -/
def refLoop : SceneDict → List String → List SceneDict
  | cur, [] => [cur]
  | cur, l :: ls =>
    if isHeader l then cur :: refLoop (initScene (pyStrip l)) ls
    else refLoop (bodyStep cur l) ls

/-- Reference parser, leading part: lines before the first header produce
nothing; the first header opens the first record. -/
def refStart : List String → List SceneDict
  | [] => []
  | l :: ls => if isHeader l then refLoop (initScene (pyStrip l)) ls else refStart ls

/-- Reference parser over the whole text (spec §4.2 contract). -/
def refParse (content : String) : List SceneDict :=
  refStart (pySplit '\n' content)

/-- The first line of the split text that is nonempty after stripping. -/
def firstNonemptyLine : List String → Option String
  | [] => none
  | l :: ls => if pyTruthy (pyStrip l) then some l else firstNonemptyLine ls

/-- The very first non-empty line of the input is not a scene header
(the edge case of spec §4.2). -/
def preHeaderInput (content : String) : Bool :=
  match firstNonemptyLine (pySplit '\n' content) with
  | none => false
  | some l => !(pyStartsWith (pyLower (pyStrip l)) "scene")

/-- Did parsing return normally? -/
def parseOk (content : String) : Bool :=
  match parseScenes content with
  | .ok _ => true
  | .error _ => false

/-- The result dict of app.py `generate_video_scenes`
(lines 105-109 on success, 113-116 on a caught exception). -/
inductive Result where
  | success (topic : J) (scenes : List SceneDict)
  | error (message : String)

/-- The `topic` field of a success result. -/
def Result.topicOf : Result → Option J
  | .success t _ => some t
  | .error _ => none

/-- JSON view of a scene dict as `jsonify` serializes it
(keys in insertion order: number, description, elements). -/
def SceneDict.toJ (d : SceneDict) : J :=
  J.obj ((match d.number with | some n => [("number", J.str n)] | none => []) ++
    (match d.description with | some s => [("description", J.str s)] | none => []) ++
    (match d.elements with | some es => [("elements", J.arr (es.map J.str))] | none => []))

/-- JSON view of an app.py result dict. -/
def Result.toJ : Result → J
  | .success t scenes =>
    J.obj [("status", J.str "success"), ("topic", t), ("scenes", J.arr (scenes.map SceneDict.toJ))]
  | .error m => J.obj [("status", J.str "error"), ("message", J.str m)]

/-- app.py `generate_video_scenes` (lines 48-116).  The chat-completion
call is the `llm` parameter: `.ok content` is the stripped-to-be response
text, `.error e` any exception raised by the client call or response
access; the `try`/`except` turns every exception — including the parser's
potential `KeyError` — into the error dict. -/
def generate_video_scenes (topic : J) (llm : Except PyErr String) : Result :=
  match llm with
  | .error e => .error (pyMsg e)
  | .ok content =>
    match parseScenes (pyStrip content) with
    | .error m => .error m
    | .ok scenes => .success topic scenes

/-- app.py `main` (lines 118-132): delegates to `generate_video_scenes`;
its own `try`/`except` never fires because the callee already catches. -/
def main (topic : J) (llm : Except PyErr String) : Result :=
  generate_video_scenes topic llm

/-- Message of the `AttributeError` raised by `data.get('topic')` when the
parsed JSON body is not a dict (CPython's wording also quotes the type
name; the exact message text is immaterial to the claims). -/
def pyAttrMsg : J → String
  | .str _ => "str object has no attribute get"
  | .num _ => "int object has no attribute get"
  | .arr _ => "list object has no attribute get"
  | _ => "object has no attribute get"

/-- app.py `execute_crewai` (lines 138-174).  `body` is the value
`request.get_json()` produced (`none` when no JSON body was supplied).
Returns the response JSON and the HTTP status code. -/
def execute_crewai (body : Option J) (llm : Except PyErr String) : J × Nat :=
  match body with
  | none => (J.obj [("status", J.str "error"), ("message", J.str "No data provided")], 400)
  | some data =>
    if !data.truthy then
      (J.obj [("status", J.str "error"), ("message", J.str "No data provided")], 400)
    else
      match data with
      | J.obj fs =>
        match getField fs "topic" with
        | none => (J.obj [("status", J.str "error"), ("message", J.str "Topic is required")], 400)
        | some t =>
          if !t.truthy then
            (J.obj [("status", J.str "error"), ("message", J.str "Topic is required")], 400)
          else
            match main t llm with
            | .error m => ((Result.error m).toJ, 500)
            | .success tp s => ((Result.success tp s).toJ, 200)
      | other => ((Result.error (pyAttrMsg other)).toJ, 500)

/-- Outcome of the `if __name__ == '__main__':` block of app.py
(lines 176-183): exit with a code, or start serving on a port. -/
inductive ServerStart where
  | exitCode (code : Nat)
  | serve (port : Nat)
deriving DecidableEq

/-- app.py `__main__` block: missing/empty `OPENAI_API_KEY` exits with
status 1 before the server starts; otherwise serve on `PORT`
(default 5000; the int parse of `PORT` is abstracted as `Option Nat`). -/
def server_entry (apiKey : Option String) (port : Option Nat) : ServerStart :=
  if !pyTruthy (apiKey.getD "") then .exitCode 1 else .serve (port.getD 5000)

/-- The request carries no usable topic: body absent, falsy, or an object
whose `topic` field is missing or falsy (amended-claim wording for C7). -/
def requestRejected (body : Option J) : Bool :=
  match body with
  | none => true
  | some data =>
    !data.truthy ||
      (match data with
       | J.obj fs =>
         (match getField fs "topic" with
          | none => true
          | some t => !t.truthy)
       | _ => false)

/-- The HTTP status code the handler is expected to produce (amended-claim
wording for C7): 400 when the request carries no usable topic, 500 for a
truthy non-object body (attribute error) or a generation error, 200 on
success. -/
def expectedCode (body : Option J) (llm : Except PyErr String) : Nat :=
  if requestRejected body then 400
  else
    match body with
    | some (J.obj fs) =>
      (match getField fs "topic" with
       | some t =>
         (match generate_video_scenes t llm with
          | Result.error _ => 500
          | Result.success _ _ => 200)
       | none => 400)
    | _ => 500

end App

namespace Crew

/-- The `ValueError` message of crew.py `get_openai_client` (lines 17-22). -/
def apiKeyMissingMsg : String :=
  "OpenAI API key not found! Please set your OPENAI_API_KEY environment variable.\nYou can do this by either:\n1. Creating a .env file with OPENAI_API_KEY=your-key-here\n2. Setting it in your terminal: export OPENAI_API_KEY=your-key-here"

/-- crew.py `get_openai_client` (lines 10-24): raises `ValueError` when the
environment variable is absent or empty, else yields a client (modelled as
`Unit`). -/
def get_openai_client (apiKey : Option String) : Except PyErr Unit :=
  if !pyTruthy (apiKey.getD "") then .error (.valueError apiKeyMissingMsg) else .ok ()

/-- The structured content of crew.py `generate_video_scenes`'s JSON
output: either `{"topic": ..., "scenes": [...]}` (scenes are plain
stripped lines, not records) or `{"error": ...}`. -/
inductive CrewResult where
  | success (topic : String) (scenes : List String)
  | error (message : String)
deriving DecidableEq

/-- The `topic` field of a success result. -/
def CrewResult.topicOf : CrewResult → Option String
  | .success t _ => some t
  | .error _ => none

/-- The JSON value crew.py's `json.dumps` serializes. -/
def CrewResult.toJ : CrewResult → J
  | .success t s => J.obj [("topic", J.str t), ("scenes", J.arr (s.map J.str))]
  | .error m => J.obj [("error", J.str m)]

/-- crew.py `generate_video_scenes` (lines 51-80).  The client is built
first (raising `ValueError` on a missing key); the chat-completion call is
the `llm` parameter; the response is stripped and split into nonempty
lines, each stripped.  `except ValueError` keeps the message verbatim;
`except Exception` prefixes "An error occurred: ". -/
def generate_video_scenes (topic : String) (apiKey : Option String)
    (llm : Except PyErr String) : CrewResult :=
  match get_openai_client apiKey with
  | .error (.valueError m) => .error m
  | .error (.otherError m) => .error ("An error occurred: " ++ m)
  | .ok _ =>
    match llm with
    | .error (.valueError m) => .error m
    | .error (.otherError m) => .error ("An error occurred: " ++ m)
    | .ok content =>
      .success topic (((pySplit '\n' (pyStrip content)).filter pyTruthy).map pyStrip)

/-- Outcome of crew.py `main` (lines 82-89): print the usage line and exit
with status 1, or print the generated JSON document. -/
inductive CliOutcome where
  | usageExit (printed : String) (code : Nat)
  | output (json : J)

/-- crew.py `main`: `argv` is the full `sys.argv` (script name first);
any length other than 2 prints usage and exits 1; otherwise the topic is
`argv[1]` and the generation result is printed as JSON. -/
def main (argv : List String) (apiKey : Option String)
    (llm : Except PyErr String) : CliOutcome :=
  match argv with
  | [_, t] => .output (generate_video_scenes t apiKey llm).toJ
  | _ => .usageExit "Usage: python crew.py <topic>" 1

end Crew

namespace App

theorem isFull_isTruthy {d : SceneDict} (h : d.isFull = true) : d.isTruthy = true := by
  simp only [SceneDict.isFull, Bool.and_eq_true] at h
  simp [SceneDict.isTruthy, h.1]

theorem initScene_isFull (line : String) : (initScene line).isFull = true := by
  simp [initScene, SceneDict.isFull]

theorem bodyStep_isFull (cur : SceneDict) (raw : String) (h : cur.isFull = true) :
    (bodyStep cur raw).isFull = true := by
  unfold bodyStep
  simp only [SceneDict.isFull, Bool.and_eq_true] at h ⊢
  obtain ⟨⟨h1, h2⟩, h3⟩ := h
  split
  · split
    · split_ifs <;> simp_all
    · split_ifs <;> simp_all
  · simp_all

theorem handleContent_full_eq (cur : SceneDict) (raw : String)
    (hfull : cur.isFull = true) (ht : pyTruthy (pyStrip raw) = true) :
    handleContent cur (pyStrip raw) = .ok (bodyStep cur raw) := by
  have hds : cur.description.isSome = true := by
    simp only [SceneDict.isFull, Bool.and_eq_true] at hfull
    exact hfull.1.2
  obtain ⟨d, hd⟩ := Option.isSome_iff_exists.mp hds
  unfold handleContent bodyStep
  rw [if_pos ht]
  cases hs : splitOnceChar ':' (pyStrip raw).data with
  | none =>
    dsimp only
    simp only [hd, Option.getD_some]
    cases hpt : pyTruthy d <;> simp [hpt]
  | some kv =>
    dsimp only
    split_ifs <;> rfl

end App

namespace App

theorem loop_full_eq (ls : List String) :
    ∀ (scenes : List SceneDict) (cur : SceneDict), cur.isFull = true →
      loop scenes cur ls = .ok (scenes ++ refLoop cur ls) := by
  induction ls with
  | nil =>
    intro scenes cur h
    simp [loop, refLoop, isFull_isTruthy h]
  | cons raw rest ih =>
    intro scenes cur h
    by_cases ht : pyTruthy (pyStrip raw) = true
    · by_cases hh : pyStartsWith (pyLower (pyStrip raw)) "scene" = true
      · have hH : isHeader raw = true := by simp [isHeader, ht, hh]
        rw [show loop scenes cur (raw :: rest) =
            loop (scenes ++ [cur]) (initScene (pyStrip raw)) rest by
          simp [loop, ht, hh, isFull_isTruthy h]]
        rw [ih _ _ (initScene_isFull _)]
        simp [refLoop, hH]
      · have hH : isHeader raw = false := by simp [isHeader, hh]
        rw [show loop scenes cur (raw :: rest) =
            loop scenes (bodyStep cur raw) rest by
          simp [loop, ht, hh, isFull_isTruthy h, handleContent_full_eq cur raw h ht]]
        rw [ih _ _ (bodyStep_isFull _ _ h)]
        simp [refLoop, hH]
    · have hH : isHeader raw = false := by simp [isHeader, ht]
      have hb : bodyStep cur raw = cur := by
        unfold bodyStep
        simp [ht]
      rw [show loop scenes cur (raw :: rest) = loop scenes cur rest by simp [loop, ht]]
      rw [ih _ _ h]
      simp [refLoop, hH, hb]

theorem loop_start_eq (ls : List String) :
    loop [] ⟨none, none, none⟩ ls = .ok (refStart ls) := by
  induction ls with
  | nil => simp [loop, refStart, SceneDict.isTruthy]
  | cons raw rest ih =>
    have hcur : SceneDict.isTruthy ⟨none, none, none⟩ = false := by
      simp [SceneDict.isTruthy]
    by_cases ht : pyTruthy (pyStrip raw) = true
    · by_cases hh : pyStartsWith (pyLower (pyStrip raw)) "scene" = true
      · have hH : isHeader raw = true := by simp [isHeader, ht, hh]
        rw [show loop [] ⟨none, none, none⟩ (raw :: rest) =
            loop [] (initScene (pyStrip raw)) rest by
          simp [loop, ht, hh, hcur]]
        rw [loop_full_eq _ _ _ (initScene_isFull _)]
        simp [refStart, hH]
      · have hH : isHeader raw = false := by simp [isHeader, hh]
        rw [show loop [] ⟨none, none, none⟩ (raw :: rest) =
            loop [] ⟨none, none, none⟩ rest by
          simp [loop, ht, hh, hcur]]
        rw [ih]
        simp [refStart, hH]
    · have hH : isHeader raw = false := by simp [isHeader, ht]
      rw [show loop [] ⟨none, none, none⟩ (raw :: rest) =
          loop [] ⟨none, none, none⟩ rest by simp [loop, ht]]
      rw [ih]
      simp [refStart, hH]

theorem parseScenes_eq_refParse (content : String) :
    parseScenes content = .ok (refParse content) :=
  loop_start_eq _

end App

namespace App

theorem refLoop_length (ls : List String) :
    ∀ cur : SceneDict, (refLoop cur ls).length = 1 + ls.countP isHeader := by
  induction ls with
  | nil => intro cur; simp [refLoop]
  | cons l ls ih =>
    intro cur
    cases hH : isHeader l <;> simp [refLoop, hH, ih, List.countP_cons] <;> omega

theorem refStart_length (ls : List String) :
    (refStart ls).length = ls.countP isHeader := by
  induction ls with
  | nil => simp [refStart]
  | cons l ls ih =>
    cases hH : isHeader l <;>
      simp [refStart, hH, ih, refLoop_length, List.countP_cons] <;> omega

theorem bodyStep_number (cur : SceneDict) (raw : String) :
    (bodyStep cur raw).number = cur.number := by
  unfold bodyStep
  split
  · split
    · split_ifs <;> rfl
    · split_ifs <;> rfl
  · rfl

theorem bodyStep_description_mono (cur : SceneDict) (raw : String)
    (h : cur.description.isSome = true) : (bodyStep cur raw).description.isSome = true := by
  unfold bodyStep
  split
  · split
    · split_ifs <;> simp_all
    · split_ifs <;> simp_all
  · exact h

theorem bodyStep_elements_mono (cur : SceneDict) (raw : String)
    (h : cur.elements.isSome = true) : (bodyStep cur raw).elements.isSome = true := by
  unfold bodyStep
  split
  · split
    · split_ifs <;> simp_all
    · split_ifs <;> simp_all
  · exact h

theorem refLoop_mem (ls : List String) :
    ∀ (cur d : SceneDict), d ∈ refLoop cur ls →
      (d.number = cur.number ∧
        (cur.description.isSome = true → d.description.isSome = true) ∧
        (cur.elements.isSome = true → d.elements.isSome = true)) ∨
      (∃ raw, raw ∈ ls ∧ isHeader raw = true ∧ d.number = some (pyStrip raw) ∧
        d.description.isSome = true ∧ d.elements.isSome = true) := by
  induction ls with
  | nil =>
    intro cur d hmem
    simp only [refLoop, List.mem_singleton] at hmem
    subst hmem
    exact Or.inl ⟨rfl, id, id⟩
  | cons l ls ih =>
    intro cur d hmem
    cases hH : isHeader l with
    | false =>
      rw [refLoop, if_neg (by simp [hH])] at hmem
      rcases ih (bodyStep cur l) d hmem with ⟨hn, hd, he⟩ | ⟨raw, hr, hh, hn, hd, he⟩
      · exact Or.inl ⟨hn.trans (bodyStep_number cur l),
          fun h => hd (bodyStep_description_mono cur l h),
          fun h => he (bodyStep_elements_mono cur l h)⟩
      · exact Or.inr ⟨raw, List.mem_cons_of_mem _ hr, hh, hn, hd, he⟩
    | true =>
      rw [refLoop, if_pos (by simp [hH])] at hmem
      rcases List.mem_cons.mp hmem with heq | htail
      · subst heq
        exact Or.inl ⟨rfl, id, id⟩
      · rcases ih (initScene (pyStrip l)) d htail with ⟨hn, hd, he⟩ | ⟨raw, hr, hh, hn, hd, he⟩
        · refine Or.inr ⟨l, List.mem_cons_self _ _, hH, ?_, ?_, ?_⟩
          · simpa [initScene] using hn
          · exact hd (by simp [initScene])
          · exact he (by simp [initScene])
        · exact Or.inr ⟨raw, List.mem_cons_of_mem _ hr, hh, hn, hd, he⟩

theorem refStart_mem (ls : List String) :
    ∀ d : SceneDict, d ∈ refStart ls →
      ∃ raw, raw ∈ ls ∧ isHeader raw = true ∧ d.number = some (pyStrip raw) ∧
        d.description.isSome = true ∧ d.elements.isSome = true := by
  induction ls with
  | nil => intro d hmem; simp [refStart] at hmem
  | cons l ls ih =>
    intro d hmem
    cases hH : isHeader l with
    | false =>
      rw [refStart, if_neg (by simp [hH])] at hmem
      obtain ⟨raw, hr, hh, hn, hd, he⟩ := ih d hmem
      exact ⟨raw, List.mem_cons_of_mem _ hr, hh, hn, hd, he⟩
    | true =>
      rw [refStart, if_pos (by simp [hH])] at hmem
      rcases refLoop_mem ls _ d hmem with ⟨hn, hd, he⟩ | ⟨raw, hr, hh, hn, hd, he⟩
      · refine ⟨l, List.mem_cons_self _ _, hH, ?_, ?_, ?_⟩
        · simpa [initScene] using hn
        · exact hd (by simp [initScene])
        · exact he (by simp [initScene])
      · exact ⟨raw, List.mem_cons_of_mem _ hr, hh, hn, hd, he⟩

end App

namespace App

/-- Claim C1: the input text "Scene 1\nDescription: A sunrise over
mountains\nKey Elements: sun, peak, fog\nScene 2\nDescription: A city
street\nKey Elements: car, crowd" parses into exactly two scene records,
the first with description "A sunrise over mountains" and the three
elements sun, peak, fog, the second with description "A city street" and
the two elements car, crowd. -/
theorem scene_example_parses_two_records :
    parseScenes "Scene 1\nDescription: A sunrise over mountains\nKey Elements: sun, peak, fog\nScene 2\nDescription: A city street\nKey Elements: car, crowd" =
      .ok [⟨some "Scene 1", some "A sunrise over mountains", some ["sun", "peak", "fog"]⟩,
        ⟨some "Scene 2", some "A city street", some ["car", "crowd"]⟩] := rfl

/-- Claim C2: on every input text the parser returns normally and its
output equals the block-structured reference parser `refParse`, which
opens one record per header line, assigns every following key-value or
colon-free line to the record opened by the most recent preceding header,
and flushes the final record at end of input; in particular the number of
records equals the number of header lines. -/
theorem parser_one_record_per_header (content : String) :
    parseScenes content = .ok (refParse content) ∧
      (refParse content).length = (pySplit '\n' content).countP isHeader :=
  ⟨parseScenes_eq_refParse content, refStart_length _⟩

/-- Claim C3, counterexample: at the concrete pre-header input
"hello\nScene 1" — whose first non-empty line "hello" is not a scene
header — the parser does not fail: it returns normally with the single
record opened by the later header, so the failure the claim predicts on
such input does not occur. -/
theorem preheader_example_no_error :
    preHeaderInput "hello\nScene 1" = true ∧
    parseScenes "hello\nScene 1" = .ok [⟨some "Scene 1", some "", some []⟩] ∧
    parseOk "hello\nScene 1" = true :=
  ⟨rfl, rfl, rfl⟩

/-- Claim C3, amended: the parser returns normally on every input; when a
nonempty non-header line is seen while `current_scene` is still the empty
dict, the `elif current_scene:` branch does not execute (the empty dict
is falsy) and the line is silently dropped; consequently an input whose
first non-empty line is not a header parses without failure — the claimed
error condition is unreachable. -/
theorem preheader_no_failure :
    (∀ content, parseOk content = true) ∧
    (∀ raw rest scenes, pyStartsWith (pyLower (pyStrip raw)) "scene" = false →
      loop scenes ⟨none, none, none⟩ (raw :: rest) = loop scenes ⟨none, none, none⟩ rest) ∧
    ∀ content, preHeaderInput content = true → ∃ scenes, parseScenes content = .ok scenes := by
  refine ⟨?_, ?_, ?_⟩
  · intro content
    simp [parseOk, parseScenes_eq_refParse content]
  · intro raw rest scenes hns
    have hcur : SceneDict.isTruthy ⟨none, none, none⟩ = false := by simp [SceneDict.isTruthy]
    by_cases ht : pyTruthy (pyStrip raw) = true <;> simp [loop, ht, hns, hcur]
  · intro content _
    exact ⟨refParse content, parseScenes_eq_refParse content⟩

/-- Witness for the amended C3 at the concrete input "hello\nScene 1",
whose first non-empty line "hello" is not a header. -/
theorem preheader_no_failure_witness :
    (loop [] ⟨none, none, none⟩ ["hello", "Scene 1"] = loop [] ⟨none, none, none⟩ ["Scene 1"]) ∧
    ∃ scenes, parseScenes "hello\nScene 1" = .ok scenes :=
  ⟨preheader_no_failure.2.1 "hello" ["Scene 1"] [] (by decide),
    preheader_no_failure.2.2 "hello\nScene 1" (by decide)⟩

/-- Claim C10: every record in a parse result has all three fields
present — `number` holds the stripped text of one of the input's header
lines, `description` holds a string, `elements` holds a list of strings. -/
theorem scene_record_shape_invariant (content : String) (scenes : List SceneDict)
    (h : parseScenes content = .ok scenes) :
    ∀ d ∈ scenes,
      (∃ raw, raw ∈ pySplit '\n' content ∧ isHeader raw = true ∧
        d.number = some (pyStrip raw)) ∧
      (∃ s, d.description = some s) ∧ (∃ es, d.elements = some es) := by
  have heq := parseScenes_eq_refParse content
  rw [h] at heq
  injection heq with heq
  intro d hd
  obtain ⟨raw, hr, hh, hn, hdesc, hel⟩ := refStart_mem _ d (heq ▸ hd)
  exact ⟨⟨raw, hr, hh, hn⟩, Option.isSome_iff_exists.mp hdesc, Option.isSome_iff_exists.mp hel⟩

/-- Witness for C10 at the concrete input "Scene 1". -/
theorem scene_record_shape_invariant_witness :
    (∃ raw, raw ∈ pySplit '\n' "Scene 1" ∧ isHeader raw = true ∧
      (SceneDict.mk (some "Scene 1") (some "") (some [])).number = some (pyStrip raw)) ∧
    (∃ s, (SceneDict.mk (some "Scene 1") (some "") (some [])).description = some s) ∧
    (∃ es, (SceneDict.mk (some "Scene 1") (some "") (some [])).elements = some es) :=
  scene_record_shape_invariant "Scene 1" [⟨some "Scene 1", some "", some []⟩] rfl
    ⟨some "Scene 1", some "", some []⟩ (List.mem_singleton.mpr rfl)

end App

/-- Claim C4, counterexample: at topic "dogs" and model response
"Scene 1\nDescription: d" (with a credential present), the HTTP-path
routine and the CLI-path routine produce structurally different results:
app.py returns a status/topic/scenes object whose scenes are records,
crew.py returns a topic/scenes object whose scenes are plain strings and
which carries no status key at all. -/
theorem cli_http_results_differ_example :
    (App.generate_video_scenes (J.str "dogs") (.ok "Scene 1\nDescription: d")).toJ =
      J.obj [("status", J.str "success"), ("topic", J.str "dogs"),
        ("scenes", J.arr [J.obj [("number", J.str "Scene 1"),
          ("description", J.str "d"), ("elements", J.arr [])]])] ∧
    (Crew.generate_video_scenes "dogs" (some "k") (.ok "Scene 1\nDescription: d")).toJ =
      J.obj [("topic", J.str "dogs"), ("scenes", J.arr [J.str "Scene 1", J.str "Description: d"])] ∧
    (App.generate_video_scenes (J.str "dogs") (.ok "Scene 1\nDescription: d")).toJ.hasStatusKey = true ∧
    (Crew.generate_video_scenes "dogs" (some "k") (.ok "Scene 1\nDescription: d")).toJ.hasStatusKey = false :=
  ⟨rfl, rfl, rfl, rfl⟩

/-- Claim C4, amended: the CLI entry point invokes crew.py's own
generation routine — not the one behind the HTTP endpoint — and prints its
result as JSON; for every topic, credential state and model response the
two routines' results differ in shape (the app.py result always carries a
"status" key, the crew.py result never does). -/
theorem cli_uses_distinct_routine (script topic : String) (apiKey : Option String)
    (llm : Except PyErr String) :
    Crew.main [script, topic] apiKey llm =
      .output (Crew.generate_video_scenes topic apiKey llm).toJ ∧
    (App.generate_video_scenes (J.str topic) llm).toJ.hasStatusKey = true ∧
    (Crew.generate_video_scenes topic apiKey llm).toJ.hasStatusKey = false := by
  refine ⟨rfl, ?_, ?_⟩
  · cases llm with
    | error e => rfl
    | ok c =>
      simp only [App.generate_video_scenes, App.parseScenes_eq_refParse]
      rfl
  · cases apiKey with
    | none => rfl
    | some k =>
      by_cases hk : pyTruthy k = true
      · cases llm with
        | error e =>
          cases e <;>
            simp [Crew.generate_video_scenes, Crew.get_openai_client, hk,
              Crew.CrewResult.toJ, J.hasStatusKey, J.lookup, getField]
        | ok c =>
          simp [Crew.generate_video_scenes, Crew.get_openai_client, hk,
            Crew.CrewResult.toJ, J.hasStatusKey, J.lookup, getField]
      · simp [Crew.generate_video_scenes, Crew.get_openai_client, hk,
          Crew.CrewResult.toJ, J.hasStatusKey, J.lookup, getField]

/-- Claim C5: the topic round-trips unchanged into the `topic` field of
every successful result, in both the HTTP-path routine (app.py) and the
CLI-path routine (crew.py); an `.ok` response always succeeds in app.py
with exactly the input topic. -/
theorem topic_roundtrip (topic content : String) (apiKey : Option String)
    (llm : Except PyErr String) :
    (App.generate_video_scenes (J.str topic) (.ok content)).topicOf = some (J.str topic) ∧
    ((App.generate_video_scenes (J.str topic) llm).topicOf = none ∨
      (App.generate_video_scenes (J.str topic) llm).topicOf = some (J.str topic)) ∧
    ((Crew.generate_video_scenes topic apiKey llm).topicOf = none ∨
      (Crew.generate_video_scenes topic apiKey llm).topicOf = some topic) := by
  refine ⟨?_, ?_, ?_⟩
  · simp only [App.generate_video_scenes, App.parseScenes_eq_refParse]
    rfl
  · cases llm with
    | error e => exact Or.inl rfl
    | ok c =>
      right
      simp only [App.generate_video_scenes, App.parseScenes_eq_refParse]
      rfl
  · cases apiKey with
    | none => exact Or.inl rfl
    | some k =>
      by_cases hk : pyTruthy k = true
      · cases llm with
        | error e =>
          cases e <;> left <;>
            simp [Crew.generate_video_scenes, Crew.get_openai_client, hk, Crew.CrewResult.topicOf]
        | ok c =>
          right
          simp [Crew.generate_video_scenes, Crew.get_openai_client, hk, Crew.CrewResult.topicOf]
      · left
        simp [Crew.generate_video_scenes, Crew.get_openai_client, hk, Crew.CrewResult.topicOf]

/-- Claim C6, counterexample: in the CLI-path routine a missing credential
is converted to the JSON object with single key "error" — not to the
claimed uniform shape with a "status" key and a "message" key. -/
theorem error_shape_not_uniform_example :
    (Crew.generate_video_scenes "dogs" none (.ok "text")).toJ =
      J.obj [("error", J.str Crew.apiKeyMissingMsg)] ∧
    (Crew.generate_video_scenes "dogs" none (.ok "text")).toJ.hasStatusKey = false :=
  ⟨rfl, rfl⟩

/-- Claim C6, amended: every failure during generation is caught inside
the generation routine and converted to an in-band error result — of
shape status/message in the HTTP-path version, but of shape
single-key "error" in the CLI-path version; neither version propagates an
exception (both are total functions of the injected failure). -/
theorem generation_errors_in_band (tj : J) (topic m : String) (apiKey : Option String)
    (llm : Except PyErr String) (e : PyErr) :
    App.generate_video_scenes tj (.error e) = App.Result.error (pyMsg e) ∧
    (App.generate_video_scenes tj (.error e)).toJ =
      J.obj [("status", J.str "error"), ("message", J.str (pyMsg e))] ∧
    Crew.generate_video_scenes topic none llm = .error Crew.apiKeyMissingMsg ∧
    Crew.generate_video_scenes topic apiKey (.error (.valueError m)) =
      (if pyTruthy (apiKey.getD "") then .error m else .error Crew.apiKeyMissingMsg) ∧
    Crew.generate_video_scenes topic apiKey (.error (.otherError m)) =
      (if pyTruthy (apiKey.getD "") then .error ("An error occurred: " ++ m)
       else .error Crew.apiKeyMissingMsg) := by
  refine ⟨rfl, rfl, rfl, ?_, ?_⟩ <;>
    cases apiKey with
    | none => rfl
    | some k =>
      by_cases hk : pyTruthy k = true <;>
        simp [Crew.generate_video_scenes, Crew.get_openai_client, hk]

namespace App

/-- Claim C7, counterexample: a request whose JSON body is a truthy
non-object (here the JSON string "x") has no "topic" field, yet the
handler returns 500, not the claimed 400: `data.get('topic')` raises an
attribute error that the blanket `except` converts to a 500 response. -/
theorem nonobject_body_yields_500 :
    execute_crewai (some (J.str "x")) (.ok "Scene 1") =
      ((Result.error (pyAttrMsg (J.str "x"))).toJ, 500) ∧
    (execute_crewai (some (J.str "x")) (.ok "Scene 1")).2 = 500 :=
  ⟨rfl, rfl⟩

/-- Claim C7, amended: the handler returns 400 with an error-status body
when the JSON body is absent, falsy, or an object without a non-empty
"topic" field; 500 with an error-status body when the body is a truthy
non-object (caught attribute error) or when generation fails; and 200
with the success-shaped body otherwise — `expectedCode` states this
classification. -/
theorem execute_crewai_status_codes (body : Option J) (llm : Except PyErr String) :
    (execute_crewai body llm).2 = expectedCode body llm ∧
    ((execute_crewai body llm).2 = 400 →
      J.lookup "status" (execute_crewai body llm).1 = some (J.str "error")) ∧
    ((execute_crewai body llm).2 = 500 →
      J.lookup "status" (execute_crewai body llm).1 = some (J.str "error")) ∧
    ((execute_crewai body llm).2 = 200 → ∃ t s,
      (execute_crewai body llm).1 = (Result.success t s).toJ ∧
      J.lookup "status" (execute_crewai body llm).1 = some (J.str "success") ∧
      J.lookup "topic" (execute_crewai body llm).1 = some t) := by
  cases body with
  | none =>
    exact ⟨rfl, fun _ => rfl, by intro h; simp [execute_crewai] at h,
      by intro h; simp [execute_crewai] at h⟩
  | some data =>
    by_cases htr : data.truthy = true
    · cases data with
      | null => simp [J.truthy] at htr
      | str s =>
        refine ⟨?_, ?_, ?_, ?_⟩ <;>
          simp [execute_crewai, expectedCode, requestRejected, htr, J.lookup, getField,
            Result.toJ]
      | num n =>
        refine ⟨?_, ?_, ?_, ?_⟩ <;>
          simp [execute_crewai, expectedCode, requestRejected, htr, J.lookup, getField,
            Result.toJ]
      | arr xs =>
        refine ⟨?_, ?_, ?_, ?_⟩ <;>
          simp [execute_crewai, expectedCode, requestRejected, htr, J.lookup, getField,
            Result.toJ]
      | obj fs =>
        cases hg : getField fs "topic" with
        | none =>
          refine ⟨?_, ?_, ?_, ?_⟩ <;>
            simp [execute_crewai, expectedCode, requestRejected, htr, hg, J.lookup, getField,
              Result.toJ]
        | some t =>
          by_cases ht : t.truthy = true
          · cases hr : generate_video_scenes t llm with
            | error m =>
              refine ⟨?_, ?_, ?_, ?_⟩ <;>
                simp [execute_crewai, expectedCode, requestRejected, main, htr, hg, ht, hr,
                  J.lookup, getField, Result.toJ]
            | success tp s =>
              refine ⟨?_, ?_, ?_, ?_⟩ <;>
                simp [execute_crewai, expectedCode, requestRejected, main, htr, hg, ht, hr,
                  J.lookup, getField, Result.toJ]
          · refine ⟨?_, ?_, ?_, ?_⟩ <;>
              simp [execute_crewai, expectedCode, requestRejected, htr, hg, ht, J.lookup,
                getField, Result.toJ]
    · have hw : data.truthy = false := by simp_all
      refine ⟨?_, ?_, ?_, ?_⟩ <;>
        simp [execute_crewai, expectedCode, requestRejected, hw, J.lookup, getField, Result.toJ]

/-- Witness for the amended C7: a well-formed request succeeds with 200
and a success-status body; an absent body is rejected with an
error-status body. -/
theorem execute_crewai_status_codes_witness :
    (∃ t s, (execute_crewai (some (J.obj [("topic", J.str "dogs")])) (.ok "Scene 1")).1 =
        (Result.success t s).toJ ∧
      J.lookup "status" (execute_crewai (some (J.obj [("topic", J.str "dogs")])) (.ok "Scene 1")).1 =
        some (J.str "success") ∧
      J.lookup "topic" (execute_crewai (some (J.obj [("topic", J.str "dogs")])) (.ok "Scene 1")).1 =
        some (J.str "dogs")) ∧
    J.lookup "status" (execute_crewai none (.ok "Scene 1")).1 = some (J.str "error") := by
  refine ⟨?_, ?_⟩
  · obtain ⟨t, s, h1, h2, h3⟩ :=
      (execute_crewai_status_codes (some (J.obj [("topic", J.str "dogs")])) (.ok "Scene 1")).2.2.2 rfl
    have ht : J.lookup "topic" (execute_crewai (some (J.obj [("topic", J.str "dogs")])) (.ok "Scene 1")).1 = some (J.str "dogs") := rfl
    exact ⟨t, s, h1, h2, ht⟩
  · exact (execute_crewai_status_codes none (.ok "Scene 1")).2.1 rfl

end App

/-- Claim C8: with the OPENAI_API_KEY environment variable absent, the
server-mode entry block exits with status code 1 before serving, and the
CLI-path generation routine returns the error JSON payload carrying the
raised ValueError's message instead of crashing. -/
theorem missing_api_key_behavior (port : Option Nat) (topic : String)
    (llm : Except PyErr String) :
    App.server_entry none port = App.ServerStart.exitCode 1 ∧
    Crew.generate_video_scenes topic none llm = .error Crew.apiKeyMissingMsg ∧
    (Crew.generate_video_scenes topic none llm).toJ =
      J.obj [("error", J.str Crew.apiKeyMissingMsg)] :=
  ⟨rfl, rfl, rfl⟩

namespace Crew

/-- Claim C9: the CLI entry point exits with status 1 after printing the
usage message whenever `sys.argv` does not consist of the script name plus
exactly one topic argument; with exactly one argument it prints the
generation result as JSON. -/
theorem cli_argument_contract (argv : List String) (apiKey : Option String)
    (llm : Except PyErr String) :
    (argv.length ≠ 2 → main argv apiKey llm = .usageExit "Usage: python crew.py <topic>" 1) ∧
    (∀ s t, argv = [s, t] →
      main argv apiKey llm = .output (generate_video_scenes t apiKey llm).toJ) := by
  constructor
  · intro h
    match argv with
    | [] => rfl
    | [_] => rfl
    | [_, _] => exact absurd rfl h
    | _ :: _ :: _ :: _ => rfl
  · rintro s t rfl
    rfl

/-- Witness for C9: zero topic arguments exit with usage; one topic
argument prints the generation result. -/
theorem cli_argument_contract_witness :
    main ["crew.py"] none (.ok "") = .usageExit "Usage: python crew.py <topic>" 1 ∧
    main ["crew.py", "dogs"] none (.ok "") =
      .output (generate_video_scenes "dogs" none (.ok "")).toJ :=
  ⟨(cli_argument_contract ["crew.py"] none (.ok "")).1 (by decide),
    (cli_argument_contract ["crew.py", "dogs"] none (.ok "")).2 "crew.py" "dogs" rfl⟩

end Crew
